import Mathlib

/-!
# Verification of the ra-server build pipeline and helpers

Shallow embedding of the Go sources of `cynx-io/ra-server`:
the LXC layered-image build pipeline (`sandbox/images/lxc.go` and its
extended variant), the random-number helpers
(`internal/helper/random.go`), and the virtual-machine repository
(`internal/repository/database`).  External effects (the OS, the
database, the random source, child processes) are modelled as explicit
oracle parameters; file-system effects are modelled as an explicit
event trace together with a small file-system state on which the trace
is replayed.
-/

namespace RaServer

/-! ## `internal/helper/random.go` -/

/-- One iteration step of the digit loop in `GenerateRandomNumber`:
`minimum *= 10; maximum = maximum*10 + 9`.  `grnLoop n` is the pair
`(minimum, maximum)` after `n` iterations starting from `(1, 1)`. -/
def grnLoop : Nat → Int × Int
  | 0 => (1, 1)
  | n + 1 =>
    let p := grnLoop n
    (p.1 * 10, p.2 * 10 + 9)

/-- Embedding of `helper.GenerateRandomNumber(length int) int`.
`intn b` models `rand.Intn(b)`; the Go contract is `0 ≤ intn b < b`
for `b > 0`, which theorems take as a hypothesis.  The loop
`for i := 1; i < length; i++` runs `length - 1` times when
`length ≥ 1`. -/
def generateRandomNumber (length : Int) (intn : Int → Int) : Int :=
  if length ≤ 0 then 0
  else
    let p := grnLoop (length - 1).toNat
    p.1 + intn (p.2 - p.1 + 1)

/-- Embedding of
`helper.GenerateRandomNumberInRange(min, max, seed int) int`.
`prng seed b` models `rand.New(rand.NewSource(int64(seed))).Intn(b)`
(a pure function of the seed), and `timeRand b` models the
time-seeded draw used when `seed ≤ 0`. -/
def generateRandomNumberInRange (mn mx seed : Int)
    (prng : Int → Int → Int) (timeRand : Int → Int) : Int :=
  if mn ≥ mx then mn
  else if seed > 0 then mn + prng seed (mx - mn + 1)
  else mn + timeRand (mx - mn + 1)

/-! ## `VirtualMachineRepo.Get` (repository layer)

The store's answer to `First(&vm, id)` is modelled as an oracle from
the identifier to one of the three outcomes gorm can produce. -/

/-- Outcome of the gorm `First` lookup inside `VirtualMachineRepo.Get`. -/
inductive FirstOutcome (α : Type) where
  | found (vm : α)
  | recordNotFound
  | otherError (e : String)
deriving DecidableEq, Repr

/-- The fields of `entity.VirtualMachine` used at the repository
interface (the embedded `EssentialEntity` is kept as its `id`). -/
structure VirtualMachine where
  id : Int
  name : String
  description : String
  status : String
  type : String
  resources : String
  ipAddress : String
  userID : Int
  port : Int
deriving DecidableEq, Repr

/-- Embedding of `VirtualMachineRepo.Get(ctx, id)`: the pair models the
Go return `(*entity.VirtualMachine, error)`, with `none` for a nil
pointer and `none` for a nil error. -/
def VirtualMachineRepoGet (db : Int → FirstOutcome VirtualMachine)
    (id : Int) : Option VirtualMachine × Option String :=
  match db id with
  | .found vm => (some vm, none)
  | .recordNotFound => (none, none)
  | .otherError e => (none, some e)

/-! ## `sandbox/images/lxc.go` — process runner -/

/-- What the child process did, as observed by
`exec.Command(...).CombinedOutput()`: the combined output bytes and
whether the exit status was zero. -/
structure CmdResult where
  output : String
  exitOk : Bool
deriving DecidableEq, Repr

/-- One write to the shared log sink (`l.log` writes a formatted line
to stdout and the log file; captured command output is written raw by
`runCommand`). -/
inductive LogEvent where
  | line (s : String)
  | raw (s : String)
deriving DecidableEq, Repr

/-- Embedding of `(*LXCBuilder).runCommand(name, args...)`.  The child
process is the oracle `res`.  The result pair is the list of writes
made to the log sink before returning, and the Go `error` return
(`none` for nil).  The `[timestamp]` prefix added by `l.log` is
runtime data and is elided. -/
def runCommand (name : String) (args : List String) (res : CmdResult) :
    List LogEvent × Option String :=
  let trace := LogEvent.line ("Running: " ++ name ++ " " ++ String.intercalate " " args)
  let outEvents := if res.output.length > 0 then [LogEvent.raw res.output] else []
  (trace :: outEvents, if res.exitOk then none else some "exit status nonzero")

/-! ## `sandbox/images/lxc.go` — file-system events and state

The export functions touch the file system through `tar -czf`,
`os.Remove`, `os.Symlink` and `os.WriteFile`.  Each touch is recorded
as an event; replaying the events on a `FS` gives the state after the
call. -/

/-- A file-system effect performed by the export path. -/
inductive FsEvent where
  /-- Step `createProxmoxMetadata`: writes `etc/os-release` and
  `etc/lsb-release` under the given rootfs. -/
  | writeMeta (rootfsPath : String)
  /-- Command `tar -czf path -C dir entries…` succeeded: the archive `path`
  now exists and packs exactly `entries` (relative to `dir`). -/
  | tarCreate (path dir : String) (entries : List String)
  /-- Call `os.Remove path` (errors ignored by the caller). -/
  | removeLink (path : String)
  /-- Call `os.Symlink target linkPath` succeeded. -/
  | makeLink (linkPath target : String)
  /-- Step `createLayerMetadata`: `os.WriteFile` of the layer JSON record. -/
  | writeLayerMeta (path : String)
deriving DecidableEq, Repr

/-- File-system state: plain files, symlinks (link path paired with
its target string) and archives (archive path paired with the list of
paths packed in it). -/
structure FS where
  files : List String
  links : List (String × String)
  archives : List (String × List String)
deriving DecidableEq, Repr

/-- Replay one event on a file-system state.  New links and archives
are consed in front, so the most recent write wins on lookup. -/
def applyEvent (fs : FS) : FsEvent → FS
  | .writeMeta r =>
    { fs with files := (r ++ "/etc/os-release") :: (r ++ "/etc/lsb-release") :: fs.files }
  | .tarCreate p _ entries =>
    { fs with files := p :: fs.files, archives := (p, entries) :: fs.archives }
  | .removeLink p =>
    { files := fs.files.filter (fun q => q ≠ p),
      links := fs.links.filter (fun l => l.1 ≠ p),
      archives := fs.archives.filter (fun a => a.1 ≠ p) }
  | .makeLink l t => { fs with links := (l, t) :: fs.links }
  | .writeLayerMeta p => { fs with files := p :: fs.files }

/-- Replay a whole trace, oldest event first. -/
def applyEvents (fs : FS) (evs : List FsEvent) : FS :=
  evs.foldl applyEvent fs

/-- The target the symlink at `p` points to, if one exists. -/
def FS.linkTarget (fs : FS) (p : String) : Option String :=
  (fs.links.find? (fun l => l.1 = p)).map (fun l => l.2)

/-- The packed path list of the archive at `p`, if one exists. -/
def FS.archiveContents (fs : FS) (p : String) : Option (List String) :=
  (fs.archives.find? (fun a => a.1 = p)).map (fun a => a.2)

/-! ## `sandbox/images/lxc.go` — builder state and OS oracle -/

/-- The fields of the Go `LXCBuilder` struct used by the export path
(the log-file handle is elided; log writes are not part of the
file-system trace). -/
structure LXCBuilder where
  workDir : String
  containerDir : String
deriving DecidableEq, Repr

/-- Outcomes of the OS calls the export path makes, supplied as an
oracle:  `statOk p` is `os.Stat(p)` returning a nil error,
`statNotExist p` is `os.IsNotExist` holding of `os.Stat(p)`'s error,
`tarOk` is the `tar -czf` child exiting zero, `symlinkOk` is
`os.Symlink` returning nil, `metadataOk` is `createProxmoxMetadata`
succeeding, and `layerMetaOk` is the layer-JSON `os.WriteFile`
succeeding. -/
structure BuildWorld where
  statOk : String → Bool
  statNotExist : String → Bool
  tarOk : Bool
  symlinkOk : Bool
  metadataOk : Bool
  layerMetaOk : Bool

/-- Embedding of `filepath.Join` for the joins the export path performs (all its
arguments are clean relative names). -/
def fjoin (a b : String) : String := a ++ "/" ++ b

/-- The characters after the last `/`, accumulating the current
component. -/
def lastComponent : List Char → List Char → List Char
  | [], acc => acc
  | c :: cs, acc => if c = '/' then lastComponent cs [] else lastComponent cs (acc ++ [c])

/-- Embedding of `filepath.Base` restricted to the clean, non-empty paths the
builder constructs: the substring after the final `/`. -/
def baseName (p : String) : String := String.mk (lastComponent p.data [])

/-- Embedding of `(*LXCBuilder).dirExists`: false exactly when
`os.IsNotExist` holds of the `os.Stat` error. -/
def dirExists (w : BuildWorld) (path : String) : Bool :=
  !(w.statNotExist path)

/-- Archive name `lxc-ubuntu-base-<timestamp>.tar.gz` from
`exportBaseContainer`. -/
def baseTarGzName (timestamp : String) : String :=
  "lxc-ubuntu-base-" ++ timestamp ++ ".tar.gz"

/-- Symlink name `lxc-ubuntu-latest.tar.gz` from `exportBaseContainer`. -/
def baseSymlinkName : String := "lxc-ubuntu-latest.tar.gz"

/-- Archive name `lxc-<name>-layer-<timestamp>.tar.gz` from
`exportLayeredContainer`. -/
def layerTarGzName (containerName timestamp : String) : String :=
  "lxc-" ++ containerName ++ "-layer-" ++ timestamp ++ ".tar.gz"

/-- Symlink name `lxc-<name>-layer-latest.tar.gz` from
`exportLayeredContainer`. -/
def layerSymlinkName (containerName : String) : String :=
  "lxc-" ++ containerName ++ "-layer-latest.tar.gz"

/-- The fixed allow-list `possibleFiles` of `exportLayeredContainer`. -/
def possibleFiles : List String :=
  ["usr/lib/jvm", "etc/environment", "etc/bash.bashrc", "usr/bin/java", "usr/bin/javac"]

/-- Embedding of `(*LXCBuilder).exportBaseContainer(workDir,
containerPath)`.  Returns the file-system trace of the call and the Go
`error` return.  Order follows the source: Proxmox metadata (failure
only warned), then `tar -czf` over the whole rootfs (failure returns
an error before any symlink step), then `os.Remove` of the old
`latest` symlink and `os.Symlink` of the new one (symlink failure only
warned). -/
def exportBaseContainer (w : BuildWorld) (workDir containerPath timestamp : String) :
    List FsEvent × Option String :=
  let tarGzName := baseTarGzName timestamp
  let tarGzPath := fjoin workDir tarGzName
  let rootfsPath := fjoin containerPath "rootfs"
  let evMeta := if w.metadataOk then [FsEvent.writeMeta rootfsPath] else []
  if w.tarOk then
    let linkPath := fjoin workDir baseSymlinkName
    let evLink :=
      [FsEvent.tarCreate tarGzPath rootfsPath ["."], FsEvent.removeLink linkPath] ++
        (if w.symlinkOk then [FsEvent.makeLink linkPath tarGzName] else [])
    (evMeta ++ evLink, none)
  else
    (evMeta, some "failed to create tar.gz archive")

/-- Embedding of `(*LXCBuilder).exportLayeredContainer(workDir,
containerPath, containerName)`.  If the parent layer directory
`<containerDir>/ubuntu-base` is absent it falls back to
`exportBaseContainer`.  Otherwise it filters `possibleFiles` to the
entries whose `os.Stat` under the container rootfs succeeds, fails
with the `no Java files found` error when the filter is empty, and
otherwise tars exactly the filtered list, repoints the layer `latest`
symlink and writes the layer metadata record. -/
def exportLayeredContainer (l : LXCBuilder) (w : BuildWorld)
    (workDir containerPath containerName timestamp : String) :
    List FsEvent × Option String :=
  let parentPath := fjoin l.containerDir "ubuntu-base"
  if dirExists w parentPath then
    let tarGzName := layerTarGzName containerName timestamp
    let tarGzPath := fjoin workDir tarGzName
    let containerRootfs := fjoin containerPath "rootfs"
    let filesToTar := possibleFiles.filter (fun f => w.statOk (fjoin containerRootfs f))
    if filesToTar.isEmpty then
      ([], some "no Java files found in container - Java installation may have failed")
    else if w.tarOk then
      let linkPath := fjoin workDir (layerSymlinkName containerName)
      let evs :=
        [FsEvent.tarCreate tarGzPath containerRootfs filesToTar, FsEvent.removeLink linkPath] ++
          (if w.symlinkOk then [FsEvent.makeLink linkPath tarGzName] else []) ++
          (if w.layerMetaOk then
            [FsEvent.writeLayerMeta (fjoin workDir (containerName ++ "-layer.json"))]
          else [])
      (evs, none)
    else
      ([], some "failed to create layer diff archive")
  else
    exportBaseContainer w workDir containerPath timestamp

/-- Embedding of `exportContainerAsTarGz(l, workDir, containerPath)`:
dispatches on `filepath.Base(containerPath)` being the base container
name. -/
def exportContainerAsTarGz (l : LXCBuilder) (w : BuildWorld)
    (workDir containerPath timestamp : String) : List FsEvent × Option String :=
  let containerName := baseName containerPath
  if containerName ≠ "ubuntu-base" then
    exportLayeredContainer l w workDir containerPath containerName timestamp
  else
    exportBaseContainer w workDir containerPath timestamp

/-! ## `createLayerFromParent` — config rewrite, and `buildJava8Layer`
— parent handling -/

/-- The config-rewrite step of `(*LXCBuilder).createLayerFromParent`:
after the recursive copy, the copied config is read (`readOk` is the
`os.ReadFile` error being nil; on failure the step is silently
skipped); `strings.ReplaceAll(content, parentLayer, containerName)` is
computed and the file is rewritten only when the substitution changed
the content.  `some u` means the file was rewritten with `u`; `none`
means no write happened. -/
def createLayerFromParentConfigWrite (readOk : Bool)
    (content parentLayer containerName : String) : Option String :=
  if readOk then
    let updated := content.replace parentLayer containerName
    if updated ≠ content then some updated else none
  else
    none

/-- How `buildJava8Layer` obtains the new container's filesystem. -/
inductive CreateAction where
  | cloneParent
  | freshCreate
deriving DecidableEq, Repr

/-- The parent-handling branch of `buildJava8Layer`: clone from the
parent only when `parentLayer != ""` and its directory exists;
otherwise fall back to a fresh `lxc-create` instead of failing. -/
def java8CreateStep (l : LXCBuilder) (w : BuildWorld)
    (parentLayer : String) : CreateAction :=
  if parentLayer ≠ "" ∧ dirExists w (fjoin l.containerDir parentLayer) then
    .cloneParent
  else
    .freshCreate

/-! ## Provisioning scripts — the `apt-get update` step

`buildJava8Layer` embeds a shell script whose update step is
`for i in \x7b1..3\x7d; do if apt-get update; then UPDATE_SUCCESS=true; break;
else sleep 5; fi; done`, followed by `exit 1` when `UPDATE_SUCCESS`
is still false.  `buildUbuntuContainer`'s script instead runs
`apt-get update` once under `set -e`.  `ok i` models attempt `i` of
the external `apt-get update` exiting zero. -/

/-- The retry loop: starting at attempt number `i` with `r` attempts
remaining, returns (number of attempts actually made, final
`UPDATE_SUCCESS`). -/
def aptUpdateTry (ok : Nat → Bool) : Nat → Nat → Nat × Bool
  | _, 0 => (0, false)
  | i, r + 1 =>
    if ok i then (1, true)
    else
      let p := aptUpdateTry ok (i + 1) r
      (p.1 + 1, p.2)

/-- The Java 8 script's update step: attempts numbered from 1, three
attempts available. -/
def java8AptUpdate (ok : Nat → Bool) : Nat × Bool :=
  aptUpdateTry ok 1 3

/-- The base Ubuntu script's update step: a single `apt-get update`
under `set -e`, so exactly one attempt is made and the script fails at
this step exactly when that attempt fails. -/
def baseAptUpdate (ok : Nat → Bool) : Nat × Bool :=
  (1, ok 1)

/-- True when every symlink-touching event (`removeLink` or
`makeLink`) in the trace is strictly preceded by a successful archive
creation (`tarCreate`).  The fold state is (property so far, a
`tarCreate` has occurred). -/
def linkEventsAfterTar (evs : List FsEvent) : Bool :=
  (evs.foldl
    (fun st e =>
      match e with
      | .tarCreate _ _ _ => (st.1, true)
      | .removeLink _ => (st.1 && st.2, st.2)
      | .makeLink _ _ => (st.1 && st.2, st.2)
      | _ => st)
    (true, false)).1

/-- An OS oracle under which the parent layer directory exists but no
allow-listed path exists in the rootfs, and every command succeeds. -/
def worldNoFiles : BuildWorld :=
  ⟨fun _ => false, fun _ => false, true, true, true, true⟩

/-- An OS oracle under which everything succeeds except `os.Symlink`. -/
def worldNoSymlink : BuildWorld :=
  ⟨fun _ => true, fun _ => false, true, false, true, true⟩

/-- An OS oracle under which no path exists on disk (`os.Stat` fails
with not-exist everywhere) and every command succeeds. -/
def worldAllAbsent : BuildWorld :=
  ⟨fun _ => false, fun _ => true, true, true, true, true⟩

/-- The empty file-system state. -/
def emptyFS : FS := ⟨[], [], []⟩

/-- An OS oracle under which every path exists but the `tar` child
fails. -/
def worldTarFail : BuildWorld :=
  ⟨fun _ => true, fun _ => false, false, true, true, true⟩

/-! ## Helper lemmas -/

/-- Cancellation of a common prefix of a string append. -/
theorem str_append_cancel_left {a b c : String} (h : a ++ b = a ++ c) : b = c := by
  have h2 := congrArg String.data h
  simp only [String.data_append] at h2
  exact String.ext (List.append_cancel_left h2)

/-- Cancellation of a common suffix of a string append. -/
theorem str_append_cancel_right {a b c : String} (h : a ++ c = b ++ c) : a = b := by
  have h2 := congrArg String.data h
  simp only [String.data_append] at h2
  exact String.ext (List.append_cancel_right h2)

/-- Closed form of the digit loop: after `n` iterations `minimum` is
`10^n` and `maximum` is `2·10^n - 1`. -/
theorem grnLoop_eq (n : Nat) : grnLoop n = ((10 : Int) ^ n, 2 * 10 ^ n - 1) := by
  induction n with
  | zero => simp [grnLoop]
  | succ n ih =>
    simp only [grnLoop, ih, pow_succ]
    have h9 : (2 * (10 : Int) ^ n - 1) * 10 + 9 = 2 * (10 ^ n * 10) - 1 := by ring
    rw [h9]

/-! ## Claim theorems -/

/-- Claim C9: `helper.GenerateRandomNumber` returns 0 for every
`length ≤ 0`; for every positive `length` (the embedding is over
unbounded integers, matching the claim's no-overflow proviso) it
returns a value in the closed interval `[10^(length-1), 10^length - 1]`,
i.e. an integer with exactly `length` decimal digits, assuming the
`rand.Intn` contract `0 ≤ intn b < b` for `b > 0`. -/
theorem generateRandomNumber_spec (length : Int) (intn : Int → Int)
    (hintn : ∀ b : Int, 0 < b → 0 ≤ intn b ∧ intn b < b) :
    (length ≤ 0 → generateRandomNumber length intn = 0) ∧
    (0 < length →
      (10 : Int) ^ ((length - 1).toNat) ≤ generateRandomNumber length intn ∧
      generateRandomNumber length intn ≤ 10 ^ (length.toNat) - 1) := by
  constructor
  · intro h
    simp [generateRandomNumber, h]
  · intro h
    have hne : ¬ length ≤ 0 := by omega
    have hmn : length.toNat = (length - 1).toNat + 1 := by omega
    have hb : (0 : Int) < 10 ^ ((length - 1).toNat) := by positivity
    have h2 := hintn (10 ^ ((length - 1).toNat)) hb
    have harg : (2 * (10 : Int) ^ ((length - 1).toNat) - 1) -
        10 ^ ((length - 1).toNat) + 1 = 10 ^ ((length - 1).toNat) := by ring
    simp only [generateRandomNumber, if_neg hne, grnLoop_eq, harg]
    refine ⟨by linarith [h2.1], ?_⟩
    rw [hmn, pow_succ]
    have h3 := h2.2
    nlinarith [hb]

/-- Witness for C9 at `length = 3` with the zero draw: the result is
`100`, which lies in `[100, 999]`. -/
theorem generateRandomNumber_spec_witness :
    (10 : Int) ^ (((3 : Int) - 1).toNat) ≤ generateRandomNumber 3 (fun _ => 0) ∧
    generateRandomNumber 3 (fun _ => 0) ≤ 10 ^ ((3 : Int).toNat) - 1 :=
  (generateRandomNumber_spec 3 (fun _ => 0)
    (fun b hb => ⟨le_refl 0, hb⟩)).2 (by norm_num)

/-- Claim C10: `helper.GenerateRandomNumberInRange` returns `min`
whenever `min ≥ max`; otherwise it returns a value in `[min, max]`
(under the `rand.Intn` contract for whichever generator is used); and
for every `seed > 0` the result is independent of the time-seeded
source, so two calls with the same `(min, max, seed)` are equal. -/
theorem generateRandomNumberInRange_spec (mn mx seed : Int)
    (prng : Int → Int → Int) (timeRand : Int → Int)
    (hprng : ∀ s b : Int, 0 < b → 0 ≤ prng s b ∧ prng s b < b)
    (htime : ∀ b : Int, 0 < b → 0 ≤ timeRand b ∧ timeRand b < b) :
    (mn ≥ mx → generateRandomNumberInRange mn mx seed prng timeRand = mn) ∧
    (mn < mx →
      mn ≤ generateRandomNumberInRange mn mx seed prng timeRand ∧
      generateRandomNumberInRange mn mx seed prng timeRand ≤ mx) ∧
    (0 < seed → ∀ t u : Int → Int,
      generateRandomNumberInRange mn mx seed prng t =
        generateRandomNumberInRange mn mx seed prng u) := by
  refine ⟨?_, ?_, ?_⟩
  · intro h
    simp [generateRandomNumberInRange, h]
  · intro h
    have hne : ¬ mn ≥ mx := by omega
    have hb : (0 : Int) < mx - mn + 1 := by omega
    by_cases hs : seed > 0
    · have h2 := hprng seed (mx - mn + 1) hb
      simp only [generateRandomNumberInRange, if_neg hne, if_pos hs]
      omega
    · have h2 := htime (mx - mn + 1) hb
      simp only [generateRandomNumberInRange, if_neg hne, if_neg hs]
      omega
  · intro hs t u
    by_cases hge : mn ≥ mx
    · simp [generateRandomNumberInRange, hge]
    · simp [generateRandomNumberInRange, hge, hs]

/-- Witness for C10 at `(min, max, seed) = (1, 5, 7)` with the
maximal in-range generators: both the range and the determinism parts
hold at these concrete inputs. -/
theorem generateRandomNumberInRange_spec_witness :
    (1 ≤ generateRandomNumberInRange 1 5 7 (fun _ b => b - 1) (fun b => b - 1) ∧
      generateRandomNumberInRange 1 5 7 (fun _ b => b - 1) (fun b => b - 1) ≤ 5) ∧
    generateRandomNumberInRange 1 5 7 (fun _ b => b - 1) (fun _ => 0) =
      generateRandomNumberInRange 1 5 7 (fun _ b => b - 1) (fun _ => 3) := by
  have h := generateRandomNumberInRange_spec 1 5 7 (fun _ b => b - 1) (fun b => b - 1)
    (fun s b hb => by dsimp only; omega) (fun b hb => by dsimp only; omega)
  exact ⟨h.2.1 (by norm_num), h.2.2 (by norm_num) (fun _ => 0) (fun _ => 3)⟩

/-- Claim C8: `VirtualMachineRepo.Get` maps a record-not-found lookup
to the pair `(nil, nil)`, any other database error `e` to `(nil, e)`,
and a found row `vm` to `(&vm, nil)`. -/
theorem virtualMachineRepoGet_spec (db : Int → FirstOutcome VirtualMachine) (id : Int) :
    (db id = .recordNotFound → VirtualMachineRepoGet db id = (none, none)) ∧
    (∀ e, db id = .otherError e → VirtualMachineRepoGet db id = (none, some e)) ∧
    (∀ vm, db id = .found vm → VirtualMachineRepoGet db id = (some vm, none)) := by
  refine ⟨?_, ?_, ?_⟩
  · intro h
    simp [VirtualMachineRepoGet, h]
  · intro e h
    simp [VirtualMachineRepoGet, h]
  · intro vm h
    simp [VirtualMachineRepoGet, h]

/-- Witness for C8: a store that reports record-not-found for every
identifier yields `(nil, nil)` at identifier 1. -/
theorem virtualMachineRepoGet_spec_witness :
    VirtualMachineRepoGet (fun _ => FirstOutcome.recordNotFound) 1 = (none, none) :=
  (virtualMachineRepoGet_spec (fun _ => FirstOutcome.recordNotFound) 1).1 rfl

/-- Nonempty strings have positive length. -/
theorem str_length_pos_of_ne {s : String} (h : s ≠ "") : s.length > 0 := by
  cases s with
  | mk data =>
    cases data with
    | nil => simp at h
    | cons c cs => simp [String.length]

/-- Claim C6: every `runCommand(name, args...)` call writes the
`Running: …` trace line to the log sink, writes all captured combined
output (when nonempty) to the log sink before returning, and surfaces
a non-zero child exit status as a returned error value rather than
aborting — the error return is nil exactly when the child exited
zero. -/
theorem runCommand_spec (name : String) (args : List String) (res : CmdResult) :
    LogEvent.line ("Running: " ++ name ++ " " ++ String.intercalate " " args)
        ∈ (runCommand name args res).1 ∧
    (res.output ≠ "" → LogEvent.raw res.output ∈ (runCommand name args res).1) ∧
    ((runCommand name args res).2 = none ↔ res.exitOk = true) := by
  refine ⟨?_, ?_, ?_⟩
  · simp [runCommand]
  · intro h
    have hl := str_length_pos_of_ne h
    simp [runCommand, hl]
  · cases hres : res.exitOk <;> simp [runCommand, hres]

/-- Witness for C6: a failing `tar` child with output `out` has its
output logged, and its non-zero exit comes back as an error value. -/
theorem runCommand_spec_witness :
    LogEvent.raw "out" ∈ (runCommand "tar" ["-czf"] ⟨"out", false⟩).1 :=
  (runCommand_spec "tar" ["-czf"] ⟨"out", false⟩).2.1 (by decide)

/-- Claim C7: in `createLayerFromParent`, the copied config is
rewritten exactly when `strings.ReplaceAll(content, parentLayer,
containerName)` differs from the content, the rewritten content is
exactly that substitution (so text is altered only where the
parent-name substring occurs), and nothing is written when the read
fails or the substitution is a no-op. -/
theorem createLayerFromParent_config_spec (content parentLayer containerName : String) :
    createLayerFromParentConfigWrite true content parentLayer containerName =
      (if content.replace parentLayer containerName = content then none
       else some (content.replace parentLayer containerName)) ∧
    createLayerFromParentConfigWrite false content parentLayer containerName = none := by
  constructor
  · by_cases h : content.replace parentLayer containerName = content <;>
      simp [createLayerFromParentConfigWrite, h]
  · rfl

/-- Characterization of the Java 8 script's `apt-get update` retry
loop. -/
theorem java8AptUpdate_unfold (ok : Nat → Bool) :
    java8AptUpdate ok =
      (if ok 1 then (1, true)
       else if ok 2 then (2, true)
       else if ok 3 then (3, true)
       else (3, false)) := by
  by_cases h1 : ok 1 = true <;> by_cases h2 : ok 2 = true <;> by_cases h3 : ok 3 = true <;>
    simp [java8AptUpdate, aptUpdateTry, h1, h2, h3]

/-- Claim C5 (amended): in the Java 8 layer's generated script the
package-index refresh makes at most 3 attempts, stops on the first
success (so the attempt where success occurs determines the count),
and leaves `UPDATE_SUCCESS` false — making the script `exit 1` at
this step — exactly when all 3 attempts fail, in which case exactly 3
attempts were made; the base Ubuntu script instead makes a single
attempt under `set -e` and fails at this step on its first failure. -/
theorem aptUpdate_retry_spec (ok : Nat → Bool) :
    java8AptUpdate ok =
      (if ok 1 then (1, true)
       else if ok 2 then (2, true)
       else if ok 3 then (3, true)
       else (3, false)) ∧
    (java8AptUpdate ok).1 ≤ 3 ∧
    baseAptUpdate ok = (1, ok 1) := by
  refine ⟨java8AptUpdate_unfold ok, ?_, rfl⟩
  rw [java8AptUpdate_unfold ok]
  by_cases h1 : ok 1 = true <;> by_cases h2 : ok 2 = true <;> by_cases h3 : ok 3 = true <;>
    simp [h1, h2, h3]

/-- Counterexample for C5 as stated: the base Ubuntu script's update
step exits with failure after a single failed attempt — fewer than the
3 attempts the claim requires before failure. -/
theorem baseAptUpdate_cex :
    (baseAptUpdate (fun _ => false)).2 = false ∧
    (baseAptUpdate (fun _ => false)).1 < 3 := by
  exact ⟨rfl, by decide⟩

/-- The layered archive path and the layered `latest` symlink path
differ whenever the timestamp is not the literal `latest` (the Go
timestamp format `20060102-150405` can never produce it). -/
theorem layer_names_ne (workDir containerName timestamp : String)
    (hts : timestamp ≠ "latest") :
    fjoin workDir (layerTarGzName containerName timestamp) ≠
      fjoin workDir (layerSymlinkName containerName) := by
  intro h
  apply hts
  unfold fjoin at h
  have h1 : layerTarGzName containerName timestamp = layerSymlinkName containerName :=
    str_append_cancel_left h
  have hlit : ("-layer-latest.tar.gz" : String) = "-layer-" ++ ("latest" ++ ".tar.gz") := by
    decide
  unfold layerTarGzName layerSymlinkName at h1
  rw [hlit] at h1
  simp only [String.append_assoc] at h1
  have h2 := str_append_cancel_left h1
  have h3 := str_append_cancel_left h2
  have h4 := str_append_cancel_left h3
  exact str_append_cancel_right h4

/-- Claim C1 (amended): in a diff export (parent layer present), the
allow-list is filtered to the paths whose `os.Stat` under the rootfs
succeeds; when the filtered set is empty the call returns the explicit
error `no Java files found in container - Java installation may have
failed` and performs no file-system effect (in particular no archive
is created); otherwise, on tar success, the call succeeds and the
created archive packs exactly the filtered set and nothing else. -/
theorem exportLayeredContainer_diff_spec (l : LXCBuilder) (w : BuildWorld)
    (workDir containerPath containerName timestamp : String) (fs : FS)
    (hpar : dirExists w (fjoin l.containerDir "ubuntu-base") = true)
    (hts : timestamp ≠ "latest") :
    (possibleFiles.filter (fun f => w.statOk (fjoin (fjoin containerPath "rootfs") f)) = [] →
      exportLayeredContainer l w workDir containerPath containerName timestamp =
        ([], some "no Java files found in container - Java installation may have failed")) ∧
    (possibleFiles.filter (fun f => w.statOk (fjoin (fjoin containerPath "rootfs") f)) ≠ [] →
      w.tarOk = true →
      (exportLayeredContainer l w workDir containerPath containerName timestamp).2 = none ∧
      (applyEvents fs
          (exportLayeredContainer l w workDir containerPath containerName timestamp).1).archiveContents
          (fjoin workDir (layerTarGzName containerName timestamp)) =
        some (possibleFiles.filter (fun f => w.statOk (fjoin (fjoin containerPath "rootfs") f)))) := by
  have hne := layer_names_ne workDir containerName timestamp hts
  constructor
  · intro hemp
    simp [exportLayeredContainer, hpar, hemp]
  · intro hfne htar
    cases hsym : w.symlinkOk <;> cases hmeta : w.layerMetaOk <;>
      simp [exportLayeredContainer, hpar, htar, hsym, hmeta, hfne,
        applyEvents, applyEvent, FS.archiveContents, List.filter_cons, hne,
        List.isEmpty_iff]

/-- Counterexample for C1 as stated: with the parent present and no
allow-listed path on disk, the export fails with the message `no Java
files found in container - Java installation may have failed`, which
is not the claimed `no tracked files found`. -/
theorem exportLayeredContainer_msg_cex :
    (exportLayeredContainer ⟨"w", "cd"⟩ worldNoFiles "w" "c" "n" "t").2 =
      some "no Java files found in container - Java installation may have failed" ∧
    ("no Java files found in container - Java installation may have failed" : String) ≠
      "no tracked files found" := by
  constructor
  · rfl
  · decide

/-- Witness for C1 (amended) with the parent present, all allow-listed
paths on disk and a succeeding tar: the archive packs exactly the five
allow-listed entries. -/
theorem exportLayeredContainer_diff_spec_witness :
    (exportLayeredContainer ⟨"w", "cd"⟩ worldNoSymlink "w" "c" "n" "20240101-000000").2 = none ∧
    (applyEvents emptyFS
        (exportLayeredContainer ⟨"w", "cd"⟩ worldNoSymlink "w" "c" "n" "20240101-000000").1).archiveContents
        (fjoin "w" (layerTarGzName "n" "20240101-000000")) =
      some (possibleFiles.filter
        (fun f => worldNoSymlink.statOk (fjoin (fjoin "c" "rootfs") f))) :=
  (exportLayeredContainer_diff_spec ⟨"w", "cd"⟩ worldNoSymlink "w" "c" "n" "20240101-000000"
      emptyFS (by decide) (by decide)).2 (by decide) rfl

/-- Claim C2: when the named parent layer's directory is absent,
`exportContainerAsTarGz` for a layered container performs exactly the
full base export (so it succeeds whenever that base export succeeds),
and at clone time `buildJava8Layer` falls back to a fresh
`lxc-create` instead of failing outright. -/
theorem exportContainerAsTarGz_fallback_spec (l : LXCBuilder) (w : BuildWorld)
    (workDir containerPath timestamp parentLayer : String)
    (hname : baseName containerPath ≠ "ubuntu-base")
    (hpar : dirExists w (fjoin l.containerDir "ubuntu-base") = false) :
    exportContainerAsTarGz l w workDir containerPath timestamp =
      exportBaseContainer w workDir containerPath timestamp ∧
    ((exportBaseContainer w workDir containerPath timestamp).2 = none →
      (exportContainerAsTarGz l w workDir containerPath timestamp).2 = none) ∧
    (dirExists w (fjoin l.containerDir parentLayer) = false →
      java8CreateStep l w parentLayer = CreateAction.freshCreate) := by
  have hmain : exportContainerAsTarGz l w workDir containerPath timestamp =
      exportBaseContainer w workDir containerPath timestamp := by
    simp [exportContainerAsTarGz, hname, exportLayeredContainer, hpar]
  refine ⟨hmain, ?_, ?_⟩
  · intro h
    rw [hmain]
    exact h
  · intro h
    simp [java8CreateStep, h]

/-- Witness for C2 at a concrete layered container with every path
absent: the dispatch reduces to the base export and the clone step
chooses a fresh create. -/
theorem exportContainerAsTarGz_fallback_spec_witness :
    exportContainerAsTarGz ⟨"w", "cd"⟩ worldAllAbsent "w" "cd/ubuntu-java8" "t" =
      exportBaseContainer worldAllAbsent "w" "cd/ubuntu-java8" "t" ∧
    java8CreateStep ⟨"w", "cd"⟩ worldAllAbsent "ubuntu-base" = CreateAction.freshCreate := by
  have h := exportContainerAsTarGz_fallback_spec ⟨"w", "cd"⟩ worldAllAbsent "w"
    "cd/ubuntu-java8" "t" "ubuntu-base" (by decide) (by decide)
  exact ⟨h.1, h.2.2 (by decide)⟩

/-- Claim C3 (amended): after every successful export call in which
the `os.Symlink` step itself also succeeds, the per-layer `latest`
symlink points at the name of the archive created by that same call
(whose path is that name joined to the same work directory, where an
archive was indeed created by this call); a failed symlink step is
only warned about, so it does not fail the export.  Base exports use
`lxc-ubuntu-latest.tar.gz`, diff exports
`lxc-<name>-layer-latest.tar.gz`. -/
theorem export_latest_symlink_spec (l : LXCBuilder) (w : BuildWorld)
    (workDir containerPath containerName timestamp : String) (fs : FS)
    (hsym : w.symlinkOk = true) :
    ((exportBaseContainer w workDir containerPath timestamp).2 = none →
      (applyEvents fs (exportBaseContainer w workDir containerPath timestamp).1).linkTarget
          (fjoin workDir baseSymlinkName) = some (baseTarGzName timestamp) ∧
      FsEvent.tarCreate (fjoin workDir (baseTarGzName timestamp))
          (fjoin containerPath "rootfs") ["."]
        ∈ (exportBaseContainer w workDir containerPath timestamp).1) ∧
    (dirExists w (fjoin l.containerDir "ubuntu-base") = true →
      (exportLayeredContainer l w workDir containerPath containerName timestamp).2 = none →
      (applyEvents fs
          (exportLayeredContainer l w workDir containerPath containerName timestamp).1).linkTarget
          (fjoin workDir (layerSymlinkName containerName)) =
        some (layerTarGzName containerName timestamp) ∧
      (∃ entries, FsEvent.tarCreate (fjoin workDir (layerTarGzName containerName timestamp))
          (fjoin containerPath "rootfs") entries
        ∈ (exportLayeredContainer l w workDir containerPath containerName timestamp).1)) := by
  constructor
  · intro hok
    cases htar : w.tarOk <;> cases hmeta : w.metadataOk <;>
      simp [exportBaseContainer, htar, hmeta, hsym] at hok ⊢ <;>
      simp [applyEvents, applyEvent, FS.linkTarget, List.find?]
  · intro hpar hok
    cases htar : w.tarOk <;> cases hmeta : w.layerMetaOk <;>
      cases hfe : (possibleFiles.filter
        (fun f => w.statOk (fjoin (fjoin containerPath "rootfs") f))).isEmpty <;>
      simp [exportLayeredContainer, hpar, htar, hmeta, hsym, hfe] at hok ⊢ <;>
      simp [applyEvents, applyEvent, FS.linkTarget, List.find?]

/-- Counterexample for C3 as stated: with a failing `os.Symlink` the
base export still returns success, yet afterwards (from an empty
initial state) no `latest` symlink exists at all. -/
theorem export_latest_symlink_cex :
    (exportBaseContainer worldNoSymlink "w" "c" "t").2 = none ∧
    (applyEvents emptyFS (exportBaseContainer worldNoSymlink "w" "c" "t").1).linkTarget
        (fjoin "w" baseSymlinkName) = none := by
  constructor <;> rfl

/-- Witness for C3 (amended): a concrete successful base export with
a succeeding symlink step leaves the `latest` symlink pointing at the
just-created archive name. -/
theorem export_latest_symlink_spec_witness :
    (applyEvents emptyFS (exportBaseContainer worldNoFiles "w" "c" "t").1).linkTarget
        (fjoin "w" baseSymlinkName) = some (baseTarGzName "t") ∧
    FsEvent.tarCreate (fjoin "w" (baseTarGzName "t")) (fjoin "c" "rootfs") ["."]
        ∈ (exportBaseContainer worldNoFiles "w" "c" "t").1 :=
  (export_latest_symlink_spec ⟨"w", "cd"⟩ worldNoFiles "w" "c" "n" "t" emptyFS rfl).1 rfl

/-- Claim C4: in both export paths every symlink-touching event
(removal of the old `latest` link, creation of the new one) occurs
only after the tar archive creation step has succeeded, and when
archive creation fails the symlink state is left exactly as it was. -/
theorem export_symlink_after_tar_spec (l : LXCBuilder) (w : BuildWorld)
    (workDir containerPath containerName timestamp : String) (fs : FS) :
    linkEventsAfterTar (exportBaseContainer w workDir containerPath timestamp).1 = true ∧
    linkEventsAfterTar
        (exportLayeredContainer l w workDir containerPath containerName timestamp).1 = true ∧
    (w.tarOk = false →
      (applyEvents fs (exportBaseContainer w workDir containerPath timestamp).1).links =
        fs.links ∧
      (applyEvents fs
          (exportLayeredContainer l w workDir containerPath containerName timestamp).1).links =
        fs.links) := by
  cases htar : w.tarOk <;> cases hsym : w.symlinkOk <;> cases hmeta : w.metadataOk <;>
    cases hlm : w.layerMetaOk <;>
    cases hpar : w.statNotExist (fjoin l.containerDir "ubuntu-base") <;>
    cases hfe : (possibleFiles.filter
      (fun f => w.statOk (fjoin (fjoin containerPath "rootfs") f))).isEmpty <;>
    simp [exportBaseContainer, exportLayeredContainer, dirExists, htar, hsym, hmeta, hlm,
      hpar, hfe, linkEventsAfterTar, applyEvents, applyEvent]

/-- Witness for C4: a concrete failed tar in the base export leaves
the (empty) symlink table unchanged. -/
theorem export_symlink_after_tar_spec_witness :
    (applyEvents emptyFS (exportBaseContainer worldTarFail "w" "c" "t").1).links =
      emptyFS.links :=
  ((export_symlink_after_tar_spec ⟨"w", "cd"⟩ worldTarFail "w" "c" "n" "t" emptyFS).2.2 rfl).1

end RaServer
